import Mathlib

/-!
# Verification of the ValueCell backend supervisor

Shallow embedding of `src/frontend/src-tauri/src/backend.rs` and
`src/frontend/src-tauri/src/lib.rs`: a process supervisor that spawns a
backend worker, drains its output into a log file, discovers the port the
backend listens on by polling a port file, and tears processes down with a
graceful-then-forceful shutdown sequence.

Effects on the outside world (filesystem reads, process spawning, writes to
a child's stdin, kill signals) are modelled by explicit oracles/outcomes:
the filesystem content at each poll is a function `Nat → Option String`,
and each spawned child carries the success/failure outcome of the write and
kill operations that will be attempted on it.  Emitted process operations
are collected into explicit action traces.
-/

set_option autoImplicit false

namespace ValueCell

/-- `PORT_FILE_TIMEOUT_MS`: maximum time to wait for the port file (ms). -/
def PORT_FILE_TIMEOUT_MS : Nat := 30000

/-- `PORT_FILE_POLL_MS`: polling interval for the port file (ms). -/
def PORT_FILE_POLL_MS : Nat := 100

/-- Number of polls performed by the `while start.elapsed() < timeout` loop,
with one `read_port_file` attempt per `PORT_FILE_POLL_MS` sleep. -/
def numPolls : Nat := PORT_FILE_TIMEOUT_MS / PORT_FILE_POLL_MS

/-- `GRACEFUL_TIMEOUT_SECS`: grace window between the exit command and the
forceful phase. -/
def GRACEFUL_TIMEOUT_SECS : Nat := 3

/-- Rust `s.parse::<u16>()`: an optional `+` sign followed by one or more
ASCII digits, value at most `65535`; anything else is a parse failure. -/
def parse_u16 (s : String) : Option Nat :=
  let cs := match s.data with
    | '+' :: rest => rest
    | cs => cs
  if cs.isEmpty then none
  else if cs.all Char.isDigit then
    let v := cs.foldl (fun acc c => acc * 10 + (c.toNat - 48)) 0
    if v < 65536 then some v else none
  else none

/-- Rust `str::trim`: remove leading and trailing whitespace (modelled on
the ASCII whitespace characters, which cover every content the backend
writes to the port file). -/
def rust_trim (s : String) : String :=
  String.mk
    (((s.data.dropWhile Char.isWhitespace).reverse.dropWhile
      Char.isWhitespace).reverse)

/-- `read_port_file`: `fs::read_to_string(port_file).ok().and_then(|s|
s.trim().parse::<u16>().ok())`.  The filesystem read result is the
argument: `none` when the file is absent/unreadable. -/
def read_port_file (content : Option String) : Option Nat :=
  content.bind fun s => parse_u16 (rust_trim s)

/-- The polling loop of `wait_for_port_file`, indexed by remaining polls
(`fuel`) and the current poll number `k`; `env k` is the port-file content
at poll `k`. -/
def wait_loop (env : Nat → Option String) : Nat → Nat → Except String Nat
  | 0, _ =>
    .error ("Timeout waiting for backend port file after " ++
      toString PORT_FILE_TIMEOUT_MS ++ "ms")
  | fuel + 1, k =>
    match read_port_file (env k) with
    | some port => .ok port
    | none => wait_loop env fuel (k + 1)

/-- `wait_for_port_file`: polls `read_port_file` every `PORT_FILE_POLL_MS`
until success or until `PORT_FILE_TIMEOUT_MS` elapses, so `numPolls`
attempts in total. -/
def wait_for_port_file (env : Nat → Option String) : Except String Nat :=
  wait_loop env numPolls 0

/-! ## Processes, events and the manager state -/

/-- `tauri_plugin_shell::process::CommandEvent`: one event on a spawned
child's output channel.  Chunks carry the (lossily utf8-decoded) text. -/
inductive CommandEvent where
  | stdout (line : String)
  | stderr (line : String)
  | error (msg : String)
  | terminated (code : Option Int) (signal : Option Int)
deriving DecidableEq

/-- `CommandChild`: a spawned child handle.  Besides the pid it carries the
outcome the OS will report for the `write` of the exit command and for
`kill` — the oracle for the fallible operations done on this handle. -/
structure CommandChild where
  pid : Nat
  writeOk : Bool
  killOk : Bool
deriving DecidableEq

/-- Compilation target of the `#[cfg(windows)]` / `#[cfg(not(windows))]`
branches of `kill_descendants_best_effort`. -/
inductive Platform where
  | windows
  | posix
deriving DecidableEq

/-- One externally visible process operation of the shutdown path.  Failing
operations (`ok = false`) are logged by the source, never propagated. -/
inductive ShutdownAction where
  | writeExit (pid : Nat) (ok : Bool)
  | sleepSecs (n : Nat)
  | taskkillTree (pid : Nat)
  | pkillIntDescendants (pid : Nat)
  | pkillKillDescendants (pid : Nat)
  | killProcess (pid : Nat) (ok : Bool)
deriving DecidableEq

/-- `kill_descendants_best_effort`: on Windows one `taskkill /F /T /PID`;
on POSIX `pkill -INT -P pid`, a 3 s sleep, then `pkill -KILL -P pid`.
All failures are ignored (best-effort), so the emitted trace is total. -/
def kill_descendants_best_effort (plat : Platform) (pid : Nat) :
    List ShutdownAction :=
  match plat with
  | .windows => [.taskkillTree pid]
  | .posix => [.pkillIntDescendants pid, .sleepSecs 3,
      .pkillKillDescendants pid]

/-- The platform's hard-kill-the-descendants action. -/
def hard_kill_action (plat : Platform) (pid : Nat) : ShutdownAction :=
  match plat with
  | .windows => .taskkillTree pid
  | .posix => .pkillKillDescendants pid

/-- `request_graceful_then_kill`: write `__EXIT__\n` to the child's stdin
(failure only logged), sleep `GRACEFUL_TIMEOUT_SECS`, kill descendants,
then `process.kill()` (failure only logged).  The source is straight-line:
no branch skips a step, and the function returns `()` — here the total
trace of emitted actions. -/
def request_graceful_then_kill (plat : Platform) (child : CommandChild) :
    List ShutdownAction :=
  [.writeExit child.pid child.writeOk, .sleepSecs GRACEFUL_TIMEOUT_SECS]
    ++ kill_descendants_best_effort plat child.pid
    ++ [.killProcess child.pid child.killOk]

/-- The mutable state of `BackendManager`: the tracked process vector and
the discovered port (both behind mutexes in the source). -/
structure BMState where
  processes : List CommandChild
  port : Option Nat
deriving DecidableEq

/-- The state `BackendManager::new` constructs: empty process vector,
`port = None`. -/
def newManagerState : BMState :=
  { processes := [], port := none }

/-- The `for process in processes.drain(..)` loop of `stop_all`: runs the
shutdown sequence on each drained child, in vector order. -/
def stop_loop (plat : Platform) : List CommandChild → List ShutdownAction
  | [] => []
  | c :: rest => request_graceful_then_kill plat c ++ stop_loop plat rest

/-- `stop_all`: drains the tracked vector (leaving it empty) and runs
`request_graceful_then_kill` on every entry; returns the new state and the
trace of process operations performed.  The port is untouched. -/
def stop_all (plat : Platform) (st : BMState) :
    BMState × List ShutdownAction :=
  ({ processes := [], port := st.port }, stop_loop plat st.processes)

/-- `impl Drop for BackendManager { fn drop(&mut self) { self.stop_all(); } }` -/
def drop_manager (plat : Platform) (st : BMState) :
    BMState × List ShutdownAction :=
  stop_all plat st

/-- `get_port`: `*self.port.lock().unwrap()`. -/
def get_port (st : BMState) : Option Nat :=
  st.port

/-- `get_backend_url`:
`self.get_port().map(|port| format!("http://127.0.0.1:{}", port))`. -/
def get_backend_url (st : BMState) : Option String :=
  (get_port st).map fun port => "http://127.0.0.1:" ++ toString port

/-- `wait_until_terminated`: drains the event channel until a
`Terminated` event (whose exit payload is discarded) or channel close. -/
def wait_until_terminated : List CommandEvent → Unit
  | [] => ()
  | .terminated _ _ :: _ => ()
  | _ :: rest => wait_until_terminated rest

/-- The environment of one `start_all` run: the spawn result of `uv sync`
(together with the event stream the sync process produces — its exit code
lives in the `terminated` event), the spawn result of the backend process,
and the port-file content at each poll (after stale-file removal). -/
structure StartEnv where
  syncSpawn : Except String (List CommandEvent)
  backendSpawn : Except String CommandChild
  portEnv : Nat → Option String

/-- `install_dependencies`: spawn `uv sync --frozen`; a spawn failure is
returned as an error, otherwise the process is awaited with
`wait_until_terminated` — its exit code is never inspected — and `Ok(())`
is returned. -/
def install_dependencies (env : StartEnv) : Except String Unit :=
  match env.syncSpawn with
  | .error e => .error ("Failed to spawn uv sync: " ++ e)
  | .ok events =>
    let _ := wait_until_terminated events
    .ok ()

/-- `start_all`: install dependencies (abort on that error), remove the
stale port file, spawn the backend (abort on spawn error), push the child
onto the tracked vector, then wait for the port file; on discovery store
the port, on timeout return the error with the child still tracked. -/
def start_all (env : StartEnv) (st : BMState) :
    BMState × Except String Unit :=
  match install_dependencies env with
  | .error e => (st, .error e)
  | .ok _ =>
    match env.backendSpawn with
    | .error e => (st, .error e)
    | .ok child =>
      let st' : BMState :=
        { st with processes := st.processes ++ [child] }
      match wait_for_port_file env.portEnv with
      | .ok port => ({ st' with port := some port }, .ok ())
      | .error e => (st', .error e)

/-! ## The log sink -/

/-- `text.trim_end_matches('\n')`: strip every trailing newline before the
line is written with `writeln!` (which appends exactly one newline). -/
def normalize_line (s : String) : String :=
  String.mk ((s.data.reverse.dropWhile (fun c => c = '\n')).reverse)

/-- Chunk events (`Stdout`/`Stderr`) — handled uniformly by the sink. -/
def is_chunk : CommandEvent → Bool
  | .stdout _ => true
  | .stderr _ => true
  | _ => false

/-- Terminal events (`Error`/`Terminated`) — the sink breaks on them. -/
def is_terminal : CommandEvent → Bool
  | .error _ => true
  | .terminated _ _ => true
  | _ => false

/-- The line a chunk event contributes to the log file. -/
def chunk_text : CommandEvent → String
  | .stdout line => normalize_line line
  | .stderr line => normalize_line line
  | _ => ""

/-- The `while let Some(event) = rx.blocking_recv()` loop of
`stream_to_file`: each chunk is normalized and appended as one line
(`writeOk i` is the outcome of the `i`-th `writeln!`; on failure the loop
breaks without appending); `Error` and `Terminated` break the loop. -/
def stream_loop (writeOk : Nat → Bool) :
    Nat → List CommandEvent → List String
  | _, [] => []
  | i, .stdout line :: rest =>
    if writeOk i then normalize_line line :: stream_loop writeOk (i + 1) rest
    else []
  | i, .stderr line :: rest =>
    if writeOk i then normalize_line line :: stream_loop writeOk (i + 1) rest
    else []
  | _, .error _ :: _ => []
  | _, .terminated _ _ :: _ => []

/-- `stream_to_file`: open the log file in append mode (on failure log and
return, writing nothing), then drain the event channel.  The result is the
list of lines appended to the file, in consumption order. -/
def stream_to_file (openOk : Bool) (writeOk : Nat → Bool)
    (events : List CommandEvent) : List String :=
  if openOk then stream_loop writeOk 0 events else []

/-- Erase the success flags of a shutdown action, keeping the operation
and its target: two traces with the same erasure attempt the same
operations on the same processes. -/
def action_shape : ShutdownAction → ShutdownAction
  | .writeExit pid _ => .writeExit pid true
  | .killProcess pid _ => .killProcess pid true
  | a => a

/-- A concrete run: sync and spawn succeed, the port file holds `"8080"`
from the first poll on. -/
def envPort8080 : StartEnv :=
  ⟨.ok [.terminated (some 0) none], .ok ⟨7, true, true⟩,
    fun _ => some "8080"⟩

/-- A concrete run: sync and spawn succeed, the port file holds `"0"`. -/
def envPortZero : StartEnv :=
  ⟨.ok [.terminated (some 0) none], .ok ⟨7, true, true⟩,
    fun _ => some "0"⟩

/-- A concrete run: sync and spawn succeed but the port file never
appears, so port discovery times out. -/
def envNoPortFile : StartEnv :=
  ⟨.ok [.terminated (some 0) none], .ok ⟨7, true, true⟩, fun _ => none⟩

/-- A concrete run in which `uv sync` exits with the non-zero code `1`
before the backend is spawned and the port `"8080"` is discovered. -/
def envSyncExit1 : StartEnv :=
  ⟨.ok [.stderr "sync failed\n", .terminated (some 1) none],
    .ok ⟨7, true, true⟩, fun _ => some "8080"⟩

/-! Basic facts about the polling loop. -/

theorem parse_u16_lt (s : String) (v : Nat) (h : parse_u16 s = some v) :
    v < 65536 := by
  unfold parse_u16 at h
  dsimp only at h
  split at h
  · exact absurd h (by simp)
  · split at h
    · split at h
      · cases h; assumption
      · cases h
    · cases h

theorem read_port_file_lt (c : Option String) (v : Nat)
    (h : read_port_file c = some v) : v < 65536 := by
  cases c with
  | none => cases h
  | some s => exact parse_u16_lt _ _ h

theorem wait_loop_ok_of_read (env : Nat → Option String) :
    ∀ fuel k, ∀ i < fuel, (read_port_file (env (k + i))).isSome →
      (wait_loop env fuel k).isOk := by
  intro fuel
  induction fuel with
  | zero => intro k i hi; omega
  | succ n ih =>
    intro k i hi hsome
    unfold wait_loop
    cases hr : read_port_file (env k) with
    | some p => simp [hr, Except.isOk, Except.toBool]
    | none =>
      simp only [hr]
      cases i with
      | zero => simp [hr] at hsome
      | succ j =>
        have : k + (j + 1) = (k + 1) + j := by omega
        exact ih (k + 1) j (by omega) (by rw [← this]; exact hsome)

theorem wait_loop_read_of_ok (env : Nat → Option String) :
    ∀ fuel k, (wait_loop env fuel k).isOk →
      ∃ i < fuel, (read_port_file (env (k + i))).isSome := by
  intro fuel
  induction fuel with
  | zero =>
    intro k h
    simp [wait_loop, Except.isOk, Except.toBool] at h
  | succ n ih =>
    intro k h
    unfold wait_loop at h
    cases hr : read_port_file (env k) with
    | some p => exact ⟨0, by omega, by simp [hr]⟩
    | none =>
      rw [hr] at h
      obtain ⟨i, hi, hs⟩ := ih (k + 1) h
      exact ⟨i + 1, by omega, by have : k + (i + 1) = (k + 1) + i := by omega
                                 rw [this]; exact hs⟩

theorem wait_loop_first (env : Nat → Option String) :
    ∀ fuel k p, wait_loop env fuel k = .ok p →
      ∃ i < fuel, read_port_file (env (k + i)) = some p ∧
        ∀ j < i, read_port_file (env (k + j)) = none := by
  intro fuel
  induction fuel with
  | zero => intro k p h; simp [wait_loop] at h
  | succ n ih =>
    intro k p h
    unfold wait_loop at h
    cases hr : read_port_file (env k) with
    | some q =>
      rw [hr] at h
      cases h
      exact ⟨0, by omega, by simpa using hr, fun j hj => by omega⟩
    | none =>
      rw [hr] at h
      obtain ⟨i, hi, hs, hmin⟩ := ih (k + 1) p h
      refine ⟨i + 1, by omega, ?_, ?_⟩
      · have : k + (i + 1) = (k + 1) + i := by omega
        rw [this]; exact hs
      · intro j hj
        cases j with
        | zero => simpa using hr
        | succ m =>
          have : k + (m + 1) = (k + 1) + m := by omega
          rw [this]; exact hmin m (by omega)

theorem wait_loop_congr (env env' : Nat → Option String)
    (h : ∀ k, read_port_file (env k) = read_port_file (env' k)) :
    ∀ fuel k, wait_loop env fuel k = wait_loop env' fuel k := by
  intro fuel
  induction fuel with
  | zero => intro k; rfl
  | succ n ih =>
    intro k
    unfold wait_loop
    rw [h k]
    cases read_port_file (env' k) with
    | some p => rfl
    | none => exact ih (k + 1)

theorem wait_loop_lt (env : Nat → Option String) :
    ∀ fuel k p, wait_loop env fuel k = .ok p → p < 65536 := by
  intro fuel
  induction fuel with
  | zero => intro k p h; simp [wait_loop] at h
  | succ n ih =>
    intro k p h
    unfold wait_loop at h
    cases hr : read_port_file (env k) with
    | some q =>
      rw [hr] at h; cases h
      exact read_port_file_lt _ _ hr
    | none =>
      rw [hr] at h
      exact ih (k + 1) p h

/-! ## Claim C1 -/

/-- C1: with the fixed 30000 ms timeout and 100 ms poll interval,
`wait_for_port_file` returns `Ok(port)` iff at some poll before the
deadline the port file exists and its trimmed content parses as a `u16`
(the port returned is the first such, and is `< 65536`); otherwise it
returns an error.  Read and parse failures are interchangeable: they only
cause the next poll to be tried, never an abort. -/
theorem c1_wait_for_port_file (env : Nat → Option String) :
    ((∀ k, k < numPolls → read_port_file (env k) = none) →
      ∃ e, wait_for_port_file env = .error e)
    ∧ (∀ k, k < numPolls → ∀ s, env k = some s →
        ∀ p, parse_u16 (rust_trim s) = some p → (wait_for_port_file env).isOk)
    ∧ (∀ p, wait_for_port_file env = .ok p →
        ∃ k, k < numPolls ∧ read_port_file (env k) = some p ∧ p < 65536 ∧
          ∀ j, j < k → read_port_file (env j) = none)
    ∧ (∀ s, parse_u16 (rust_trim s) = none →
        read_port_file (some s) = read_port_file none)
    ∧ (∀ env' : Nat → Option String,
        (∀ k, read_port_file (env k) = read_port_file (env' k)) →
          wait_for_port_file env = wait_for_port_file env') := by
  refine ⟨?_, ?_, ?_, ?_, ?_⟩
  · intro hall
    cases hw : wait_for_port_file env with
    | error e => exact ⟨e, rfl⟩
    | ok p =>
      obtain ⟨i, hi, hs⟩ := wait_loop_read_of_ok env numPolls 0
        (by simp [wait_for_port_file] at hw ⊢; simp [hw, Except.isOk, Except.toBool])
      rw [Nat.zero_add] at hs
      rw [hall i hi] at hs
      simp at hs
  · intro k hk s hs p hp
    exact wait_loop_ok_of_read env numPolls 0 k hk
      (by rw [Nat.zero_add, read_port_file, hs]; simp [hp])
  · intro p hw
    obtain ⟨i, hi, hs, hmin⟩ := wait_loop_first env numPolls 0 p hw
    rw [Nat.zero_add] at hs
    refine ⟨i, hi, hs, read_port_file_lt _ _ hs, fun j hj => ?_⟩
    have := hmin j hj
    rwa [Nat.zero_add] at this
  · intro s hs
    simp [read_port_file, hs]
  · intro env' h
    exact wait_loop_congr env env' h numPolls 0

/-- Witness for C1 at a concrete environment: the file appears at poll 0
with content `" 8080 "`, and discovery succeeds. -/
theorem c1_wait_for_port_file_witness :
    (wait_for_port_file (fun _ => some " 8080 ")).isOk :=
  (c1_wait_for_port_file (fun _ => some " 8080 ")).2.1 0 (by decide)
    " 8080 " rfl 8080 (by decide)

/-! ## Claim C3 -/

/-- C3: `get_backend_url` is `Some` exactly when `get_port` is, and then
equals `"http://127.0.0.1:" ++ port` in decimal; any `start_all` that
returns an error (in particular a port-discovery timeout) leaves the port
unchanged, so from a fresh manager both queries still answer `none`. -/
theorem c3_get_backend_url (st : BMState) :
    ((get_backend_url st).isSome ↔ (get_port st).isSome)
    ∧ (∀ p, get_port st = some p →
        get_backend_url st = some ("http://127.0.0.1:" ++ toString p))
    ∧ (∀ env st' e, start_all env st = (st', .error e) → st'.port = st.port)
    ∧ (∀ env st' e, start_all env newManagerState = (st', .error e) →
        get_port st' = none ∧ get_backend_url st' = none) := by
  have hport : ∀ env (st₀ st' : BMState) e,
      start_all env st₀ = (st', .error e) → st'.port = st₀.port := by
    intro env st₀ st' e h
    unfold start_all at h
    cases hi : install_dependencies env with
    | error e' => rw [hi] at h; cases h; rfl
    | ok u =>
      rw [hi] at h
      cases hb : env.backendSpawn with
      | error e' => rw [hb] at h; cases h; rfl
      | ok child =>
        rw [hb] at h
        cases hw : wait_for_port_file env.portEnv with
        | ok port => rw [hw] at h; cases h
        | error e' => rw [hw] at h; cases h; rfl
  refine ⟨?_, ?_, fun env st' e h => hport env st st' e h, ?_⟩
  · cases st.port with
    | none => simp [get_backend_url, get_port]
    | some p => simp [get_backend_url, get_port]
  · intro p hp
    simp [get_backend_url, hp]
  · intro env st' e h
    have h0 : st'.port = none := hport env newManagerState st' e h
    exact ⟨h0, by simp [get_backend_url, get_port, h0]⟩

/-- Witness for C3: a run whose port discovery never succeeds (the file
stays absent) makes `start_all` fail and leaves both queries at `none`. -/
theorem c3_get_backend_url_witness :
    get_port (start_all
        ⟨.ok [.terminated (some 0) none], .ok ⟨7, true, true⟩,
          fun _ => none⟩ newManagerState).1 = none ∧
    get_backend_url (start_all
        ⟨.ok [.terminated (some 0) none], .ok ⟨7, true, true⟩,
          fun _ => none⟩ newManagerState).1 = none :=
  (c3_get_backend_url newManagerState).2.2.2
    ⟨.ok [.terminated (some 0) none], .ok ⟨7, true, true⟩, fun _ => none⟩
    (start_all ⟨.ok [.terminated (some 0) none], .ok ⟨7, true, true⟩,
      fun _ => none⟩ newManagerState).1
    ("Timeout waiting for backend port file after " ++
      toString PORT_FILE_TIMEOUT_MS ++ "ms") rfl

/-! ## Claim C4 -/

/-- C4: `stop_all` is idempotent — after one call the tracked vector is
empty, and a call on a manager with an empty vector (in particular any
second call) performs no process operations, changes no state and, being a
total function into a trace, raises no error. -/
theorem c4_stop_all_idempotent (plat : Platform) (st : BMState) :
    ((stop_all plat st).1).processes = []
    ∧ stop_all plat (stop_all plat st).1 = ((stop_all plat st).1, [])
    ∧ (∀ st' : BMState, st'.processes = [] → stop_all plat st' = (st', [])) := by
  refine ⟨rfl, rfl, ?_⟩
  intro st' h
  cases st' with
  | mk procs port =>
    cases h
    rfl

/-- Witness for C4: a manager tracking one process, stopped twice. -/
theorem c4_stop_all_idempotent_witness :
    stop_all .posix (stop_all .posix ⟨[⟨7, true, true⟩], some 8080⟩).1 =
      ((stop_all .posix ⟨[⟨7, true, true⟩], some 8080⟩).1, []) :=
  (c4_stop_all_idempotent .posix ⟨[⟨7, true, true⟩], some 8080⟩).2.1

/-! ## Shutdown-trace helper lemmas -/

theorem stop_loop_decomp (plat : Platform) (c : CommandChild) :
    ∀ l : List CommandChild, c ∈ l →
      ∃ pre post,
        stop_loop plat l = pre ++ request_graceful_then_kill plat c ++ post := by
  intro l
  induction l with
  | nil => intro h; cases h
  | cons d rest ih =>
    intro h
    rcases List.mem_cons.mp h with rfl | h
    · exact ⟨[], stop_loop plat rest, by simp [stop_loop]⟩
    · obtain ⟨pre, post, heq⟩ := ih h
      exact ⟨request_graceful_then_kill plat d ++ pre, post,
        by simp [stop_loop, heq]⟩

theorem stop_loop_join (plat : Platform) :
    ∀ l : List CommandChild,
      stop_loop plat l = (l.map (request_graceful_then_kill plat)).flatten := by
  intro l
  induction l with
  | nil => rfl
  | cons c rest ih => simp [stop_loop, ih]

theorem killProcess_mem_request (plat : Platform) (c : CommandChild) :
    ShutdownAction.killProcess c.pid c.killOk ∈
      request_graceful_then_kill plat c := by
  cases plat <;> simp [request_graceful_then_kill, kill_descendants_best_effort]

theorem start_all_err_port (env : StartEnv) (st st' : BMState) (e : String)
    (h : start_all env st = (st', .error e)) : st'.port = st.port := by
  unfold start_all at h
  cases hi : install_dependencies env with
  | error e' => rw [hi] at h; cases h; rfl
  | ok u =>
    rw [hi] at h
    cases hb : env.backendSpawn with
    | error e' => rw [hb] at h; cases h; rfl
    | ok child =>
      rw [hb] at h
      cases hw : wait_for_port_file env.portEnv with
      | ok port => rw [hw] at h; cases h
      | error e' => rw [hw] at h; cases h; rfl

/-! ## Claim C2 -/

/-- C2 counterexample: the claimed range invariant `1 ≤ p` fails on the
code — a port file containing `"0"` parses as the `u16` value `0`, port
discovery succeeds, and `PortState` is set to `Some 0`. -/
theorem c2_port_counterexample :
    ((start_all envPortZero newManagerState).1).port = some 0 ∧
      ¬ (1 : Nat) ≤ 0 := by
  exact ⟨rfl, by decide⟩

/-- C2 (amended): the stored port is an optional integer that, whenever it
is `Some p`, satisfies `0 ≤ p ≤ 65535` (any `u16`, including `0` — the
code enforces no lower bound of `1`); it starts as `None`, is set only by
the port-discovery step of `start_all`, and is never mutated by `stop_all`
(hence not by disposal) — the query operations are pure. -/
theorem c2_port_invariant :
    newManagerState.port = none
    ∧ (∀ env (st st' : BMState) r, start_all env st = (st', r) →
        st'.port = st.port ∨ ∃ p, st'.port = some p ∧ p ≤ 65535)
    ∧ (∀ plat st, ((stop_all plat st).1).port = st.port)
    ∧ (∀ plat st, ((drop_manager plat st).1).port = st.port) := by
  refine ⟨rfl, ?_, fun plat st => rfl, fun plat st => rfl⟩
  intro env st st' r h
  unfold start_all at h
  cases hi : install_dependencies env with
  | error e' => rw [hi] at h; cases h; exact Or.inl rfl
  | ok u =>
    rw [hi] at h
    cases hb : env.backendSpawn with
    | error e' => rw [hb] at h; cases h; exact Or.inl rfl
    | ok child =>
      rw [hb] at h
      cases hw : wait_for_port_file env.portEnv with
      | ok port =>
        rw [hw] at h
        cases h
        refine Or.inr ⟨port, rfl, ?_⟩
        have := wait_loop_lt env.portEnv numPolls 0 port hw
        omega
      | error e' => rw [hw] at h; cases h; exact Or.inl rfl

/-- Witness for C2 at a concrete run: discovery of port `8080` stores a
value `≤ 65535`, and a subsequent `stop_all` leaves it unchanged. -/
theorem c2_port_invariant_witness :
    (((start_all envPort8080 newManagerState).1).port =
        newManagerState.port ∨
      ∃ p, ((start_all envPort8080 newManagerState).1).port = some p ∧
        p ≤ 65535) :=
  c2_port_invariant.2.1 envPort8080 newManagerState
    (start_all envPort8080 newManagerState).1
    (start_all envPort8080 newManagerState).2 rfl

/-! ## Claim C5 -/

/-- C5: termination always succeeds from the caller's point of view.
`request_graceful_then_kill` is a total function into an action trace
whose shape — which operations are attempted, on which processes — is the
same as in the all-successful run, whatever the write/kill outcomes; and
`stop_all` processes the entire vector (the concatenation, in order, of
every child's trace), reaching the final kill of every tracked process,
so it can never fail or abort partway through the list. -/
theorem c5_termination_total (plat : Platform) (child : CommandChild)
    (st : BMState) :
    ((request_graceful_then_kill plat child).map action_shape =
      (request_graceful_then_kill plat ⟨child.pid, true, true⟩).map
        action_shape)
    ∧ ((stop_all plat st).2 =
        (st.processes.map (request_graceful_then_kill plat)).flatten)
    ∧ (∀ c ∈ st.processes,
        ShutdownAction.killProcess c.pid c.killOk ∈ (stop_all plat st).2) := by
  refine ⟨?_, stop_loop_join plat st.processes, ?_⟩
  · cases plat <;>
      simp [request_graceful_then_kill, kill_descendants_best_effort,
        action_shape]
  · intro c hc
    obtain ⟨pre, post, heq⟩ := stop_loop_decomp plat c st.processes hc
    show ShutdownAction.killProcess c.pid c.killOk ∈ stop_loop plat st.processes
    rw [heq]
    exact List.mem_append_left _
      (List.mem_append_right _ (killProcess_mem_request plat c))

/-- Witness for C5: a manager tracking two processes whose exit-command
write and kill both fail still reaches the final kill of each. -/
theorem c5_termination_total_witness :
    ShutdownAction.killProcess 9 false ∈
      (stop_all .posix ⟨[⟨8, false, false⟩, ⟨9, false, false⟩], none⟩).2 :=
  (c5_termination_total .posix ⟨8, false, false⟩
      ⟨[⟨8, false, false⟩, ⟨9, false, false⟩], none⟩).2.2
    ⟨9, false, false⟩ (by decide)

/-! ## Claim C6 -/

/-- C6: shutdown of a process is two-phase and the forceful phase is never
skipped: the trace is exactly the exit-sentinel write (failure merely
recorded), then the fixed 3-second grace window, then the descendant kill
— which contains the platform's hard-kill action — then the kill of the
process itself; and a failed write changes nothing after the write step. -/
theorem c6_two_phase_unconditional (plat : Platform) (child : CommandChild) :
    request_graceful_then_kill plat child =
      [.writeExit child.pid child.writeOk,
        .sleepSecs GRACEFUL_TIMEOUT_SECS]
        ++ kill_descendants_best_effort plat child.pid
        ++ [.killProcess child.pid child.killOk]
    ∧ GRACEFUL_TIMEOUT_SECS = 3
    ∧ hard_kill_action plat child.pid ∈
        kill_descendants_best_effort plat child.pid
    ∧ ShutdownAction.killProcess child.pid child.killOk ∈
        request_graceful_then_kill plat child
    ∧ (request_graceful_then_kill plat
          ⟨child.pid, false, child.killOk⟩).drop 1 =
        (request_graceful_then_kill plat child).drop 1 := by
  refine ⟨rfl, rfl, ?_, killProcess_mem_request plat child, ?_⟩
  · cases plat <;>
      simp [hard_kill_action, kill_descendants_best_effort]
  · cases plat <;> rfl

/-! ## Claim C7 -/

/-- C7: a non-zero exit of the dependency-sync step is a soft failure —
if the sync process spawns, `install_dependencies` returns `Ok` whatever
event stream (hence whatever exit code) the sync process produces, and
`start_all` continues to spawn the backend, which ends up in the tracked
vector; only a failure to spawn the sync process aborts `start_all`, state
untouched. -/
theorem c7_sync_soft_failure (env : StartEnv) (st : BMState) :
    (∀ evs, env.syncSpawn = .ok evs → install_dependencies env = .ok ())
    ∧ (∀ e, env.syncSpawn = .error e →
        install_dependencies env =
            .error ("Failed to spawn uv sync: " ++ e)
          ∧ start_all env st =
            (st, .error ("Failed to spawn uv sync: " ++ e)))
    ∧ (∀ evs child, env.syncSpawn = .ok evs → env.backendSpawn = .ok child →
        ((start_all env st).1).processes = st.processes ++ [child]) := by
  refine ⟨?_, ?_, ?_⟩
  · intro evs h
    simp [install_dependencies, h]
  · intro e h
    constructor
    · simp [install_dependencies, h]
    · unfold start_all
      simp [install_dependencies, h]
  · intro evs child hs hb
    unfold start_all
    simp only [install_dependencies, hs, hb]
    cases hw : wait_for_port_file env.portEnv with
    | ok port => simp [hw]
    | error e => simp [hw]

/-- Witness for C7: a sync process that exits with code `1` does not abort
startup — `install_dependencies` still returns `Ok` and the backend child
is pushed onto the tracked vector. -/
theorem c7_sync_soft_failure_witness :
    install_dependencies envSyncExit1 = .ok () ∧
      ((start_all envSyncExit1 newManagerState).1).processes =
        newManagerState.processes ++ [⟨7, true, true⟩] :=
  ⟨(c7_sync_soft_failure envSyncExit1 newManagerState).1
      [.stderr "sync failed\n", .terminated (some 1) none] rfl,
    (c7_sync_soft_failure envSyncExit1 newManagerState).2.2
      [.stderr "sync failed\n", .terminated (some 1) none]
      ⟨7, true, true⟩ rfl rfl⟩

/-! ## Claim C8 -/

/-- C8 counterexample: a tracked process is removed from the set without
any confirmation of its termination — here the final kill operation
reports failure, no step of the shutdown sequence confirmed that the
process terminated, yet after `stop_all` the tracked set is empty. -/
theorem c8_removed_without_confirmation :
    ((stop_all .posix ⟨[⟨99, true, false⟩], none⟩).1).processes = []
    ∧ ShutdownAction.killProcess 99 false ∈
        (stop_all .posix ⟨[⟨99, true, false⟩], none⟩).2 :=
  ⟨rfl, by decide⟩

/-- C8 (amended): a `ManagedProcess` is removed from the tracked set
exactly when `stop_all` drains it and runs the shutdown sequence on it:
every tracked process has its full two-phase sequence in the `stop_all`
trace and the set is left empty — removal is unconditional, it does not
wait for confirmation that the process terminated (a failed kill still
removes the entry). -/
theorem c8_drain_runs_shutdown (plat : Platform) (st : BMState) :
    ((stop_all plat st).1).processes = []
    ∧ (∀ c ∈ st.processes, ∃ pre post,
        (stop_all plat st).2 =
          pre ++ request_graceful_then_kill plat c ++ post) :=
  ⟨rfl, fun c hc => stop_loop_decomp plat c st.processes hc⟩

/-- Witness for C8 (amended): the process whose kill fails still has its
full shutdown sequence inside the `stop_all` trace. -/
theorem c8_drain_runs_shutdown_witness :
    ∃ pre post,
      (stop_all .posix ⟨[⟨98, true, false⟩], none⟩).2 =
        pre ++ request_graceful_then_kill .posix ⟨98, true, false⟩ ++ post :=
  (c8_drain_runs_shutdown .posix ⟨[⟨98, true, false⟩], none⟩).2
    ⟨98, true, false⟩ (by decide)

/-! ## Claim C9 -/

theorem stream_loop_chunks (writeOk : Nat → Bool)
    (hw : ∀ i, writeOk i = true) :
    ∀ chunks : List CommandEvent, (∀ e ∈ chunks, is_chunk e = true) →
      ∀ term, is_terminal term = true → ∀ tail i,
        stream_loop writeOk i (chunks ++ term :: tail) =
          chunks.map chunk_text := by
  intro chunks
  induction chunks with
  | nil =>
    intro _ term ht tail i
    cases term with
    | stdout line => simp [is_terminal] at ht
    | stderr line => simp [is_terminal] at ht
    | error msg => simp [stream_loop]
    | terminated code signal => simp [stream_loop]
  | cons e rest ih =>
    intro hc term ht tail i
    have he : is_chunk e = true := hc e (List.mem_cons_self e rest)
    have hrest : ∀ x ∈ rest, is_chunk x = true :=
      fun x hx => hc x (List.mem_cons_of_mem e hx)
    cases e with
    | stdout line =>
      simp only [List.cons_append, stream_loop, hw i, if_true,
        List.map_cons, chunk_text]
      exact congrArg _ (ih hrest term ht tail (i + 1))
    | stderr line =>
      simp only [List.cons_append, stream_loop, hw i, if_true,
        List.map_cons, chunk_text]
      exact congrArg _ (ih hrest term ht tail (i + 1))
    | error msg => simp [is_chunk] at he
    | terminated code signal => simp [is_chunk] at he

/-- C9: for any `N` stdout/stderr chunks followed by a terminal event
(`Error` or `Terminated`), and a log file that accepts every write, the
sink appends exactly the `N` normalized chunk lines, uniformly for stdout
and stderr and in consumption order; events after the terminal one are
never consumed — the output is the same as if the stream ended at the
terminal event. -/
theorem c9_log_sink (chunks : List CommandEvent) (term : CommandEvent)
    (tail : List CommandEvent) (writeOk : Nat → Bool)
    (hc : ∀ e ∈ chunks, is_chunk e = true) (ht : is_terminal term = true)
    (hw : ∀ i, writeOk i = true) :
    stream_to_file true writeOk (chunks ++ term :: tail) =
      chunks.map chunk_text
    ∧ (stream_to_file true writeOk (chunks ++ term :: tail)).length =
      chunks.length
    ∧ stream_to_file true writeOk (chunks ++ term :: tail) =
      stream_to_file true writeOk (chunks ++ [term]) := by
  have h1 := stream_loop_chunks writeOk hw chunks hc term ht tail 0
  have h2 := stream_loop_chunks writeOk hw chunks hc term ht [] 0
  refine ⟨?_, ?_, ?_⟩
  · simpa [stream_to_file] using h1
  · simp [stream_to_file, h1]
  · simp only [stream_to_file, if_true]
    rw [h1, h2]

/-- Witness for C9: two chunks (one stdout with trailing newline, one
stderr) then a `Terminated` event, with a late chunk that is never
consumed: exactly the two normalized lines are written. -/
theorem c9_log_sink_witness :
    stream_to_file true (fun _ => true)
      [.stdout "hello\n", .stderr "oops", .terminated (some 0) none,
        .stdout "late"] = ["hello", "oops"] := by
  have h := c9_log_sink [.stdout "hello\n", .stderr "oops"]
    (.terminated (some 0) none) [.stdout "late"] (fun _ => true)
    (by decide) rfl (fun i => rfl)
  have h2 : ([.stdout "hello\n", .stderr "oops"] :
      List CommandEvent).map chunk_text = ["hello", "oops"] := by decide
  exact h.1.trans h2

/-! ## Claim C10 -/

/-- C10: when `start_all` spawns the backend but port discovery fails, the
spawned child is already in the tracked set of the returned state, so a
later `stop_all` — and disposal, which is `stop_all` — runs the full
termination sequence on it: a failed startup never leaves the spawned
backend untracked. -/
theorem c10_failed_start_still_tracked (env : StartEnv) (st : BMState)
    (evs : List CommandEvent) (child : CommandChild) (e : String)
    (hsync : env.syncSpawn = .ok evs)
    (hspawn : env.backendSpawn = .ok child)
    (hwait : wait_for_port_file env.portEnv = .error e) :
    start_all env st =
      ({ st with processes := st.processes ++ [child] }, .error e)
    ∧ child ∈ ((start_all env st).1).processes
    ∧ (∀ plat, ∃ pre post,
        (stop_all plat (start_all env st).1).2 =
          pre ++ request_graceful_then_kill plat child ++ post)
    ∧ (∀ plat, drop_manager plat (start_all env st).1 =
        stop_all plat (start_all env st).1) := by
  have hstart : start_all env st =
      ({ st with processes := st.processes ++ [child] }, .error e) := by
    unfold start_all
    simp [install_dependencies, hsync, hspawn, hwait]
  have hm : child ∈ ((start_all env st).1).processes := by
    rw [hstart]; simp
  refine ⟨hstart, hm, ?_, fun plat => rfl⟩
  intro plat
  exact stop_loop_decomp plat child ((start_all env st).1).processes hm

set_option maxRecDepth 4000 in
/-- Witness for C10: with no port file ever appearing, `start_all` fails
by timeout yet the spawned child (pid 7) is tracked. -/
theorem c10_failed_start_still_tracked_witness :
    (⟨7, true, true⟩ : CommandChild) ∈
      ((start_all envNoPortFile newManagerState).1).processes :=
  (c10_failed_start_still_tracked envNoPortFile newManagerState
      [.terminated (some 0) none] ⟨7, true, true⟩
      ("Timeout waiting for backend port file after " ++
        toString PORT_FILE_TIMEOUT_MS ++ "ms") rfl rfl rfl).2.1

end ValueCell
